import Mathlib

/-!
Verification of `src/cosmology/compat/classy/_standard.py`, the FLRW
Cosmology API wrapper `StandardCosmologyWrapper` around an opaque CLASS
solver object.

Modelling conventions (shallow embedding):

* Numeric values are elements of an arbitrary `LinearOrderedField F`
  (the Python code computes with IEEE floats; all the properties checked
  here are exact field algebra, so they are stated over any such field).
* The opaque solver `self.cosmo` is a structure `ClassSolver` of the
  scalar query functions the wrapper actually calls.
* The `numpy` math functions (`np.pi`, `np.sqrt`, `np.arcsin`,
  `np.arcsinh`) and the `constants` module (`c`, `G`) are gathered in a
  structure `Numerics` of abstract operations; the only property the
  proofs need from them is that `sqrt` of a positive number is positive.
* Methods that `raise NotImplementedError`, and intermediate arithmetic
  steps that would be ill-defined (a true division with zero
  denominator, which raises `ZeroDivisionError` on Python floats, or a
  `sqrt`/`arcsin` outside its real domain, which yields `nan` under
  numpy), are modelled in the `Except Err` monad, with the error tag
  recording which failure occurred.  Sequencing follows the Python
  evaluation order of the source lines.
* `vectorize` is numpy's elementwise lifting of a scalar function,
  modelled on ordered `List`s of redshifts.
-/

namespace ClassyCompat

/-- Failure outcomes of the wrapped computations: a `raise
NotImplementedError` in the source, a division whose denominator is
zero, or a math-function argument outside its real domain. -/
inductive Err where
  | notImplemented
  | divByZero
  | domain
deriving DecidableEq

/-- Abstract interface for the numeric library and physical constants
used by `_standard.py`: `np.pi`, `constants.c`, `constants.G`,
`np.sqrt`, `np.arcsin`, `np.arcsinh`.  `sqrt_pos` is the only fact about
these operations the development relies on. -/
structure Numerics (F : Type) [LinearOrderedField F] where
  pi : F
  c : F
  G : F
  sqrt : F → F
  arcsin : F → F
  arsinh : F → F
  sqrt_pos : ∀ x : F, 0 < x → 0 < sqrt x

/-- Abstract interface of the opaque CLASS solver object `self.cosmo`:
exactly the scalar queries `_standard.py` invokes on it. -/
structure ClassSolver (F : Type) where
  Om_m : F → F
  Hubble : F → F
  angular_distance : F → F
  luminosity_distance : F → F
  Omega_Lambda : F
  Omega_m : F
  Omega0_k : F
  Omega_r : F
  Omega_b : F
  Omega0_cdm : F
  Omega_g : F
  Neff : F
  T_cmb : F

/-- The wrapper dataclass: it holds only the solver handle (the
vectorization cache `_cosmo_fn` is a pure function of it, see
`cosmo_fn`). -/
structure StandardCosmologyWrapper (F : Type) where
  cosmo : ClassSolver F

variable {F : Type} [LinearOrderedField F]

/-- Model of `numpy.vectorize`: apply the scalar function independently
to each element of the input sequence, in input order. -/
def vectorize (f : F → F) : List F → List F :=
  fun zs => zs.map f

/-- The vectorization cache built in `__post_init__`: the four scalar
solver queries, each lifted elementwise. -/
structure CosmoFnCache (F : Type) where
  Om_m : List F → List F
  Hubble : List F → List F
  angular_distance : List F → List F
  luminosity_distance : List F → List F

/-- Model of `__post_init__` line 34-43: the `_cosmo_fn` mapping, built
once from the solver handle and never mutated afterwards. -/
def cosmo_fn (m : StandardCosmologyWrapper F) : CosmoFnCache F :=
  ⟨vectorize m.cosmo.Om_m, vectorize m.cosmo.Hubble,
   vectorize m.cosmo.angular_distance, vectorize m.cosmo.luminosity_distance⟩

/-- Checked division: Python float division raises `ZeroDivisionError`
on a zero denominator. -/
def cdiv (a b : F) : Except Err F :=
  if b = 0 then .error .divByZero else .ok (a / b)

/-- Checked square root: `np.sqrt` of a negative argument leaves the
real domain (numpy yields `nan`); we tag that as a domain failure. -/
def csqrt (ops : Numerics F) (x : F) : Except Err F :=
  if x < 0 then .error .domain else .ok (ops.sqrt x)

/-- Checked inverse sine: `np.arcsin` outside `[-1, 1]` leaves the real
domain (numpy yields `nan`); we tag that as a domain failure. -/
def carcsin (ops : Numerics F) (x : F) : Except Err F :=
  if x < -1 ∨ 1 < x then .error .domain else .ok (ops.arcsin x)

/-- Source line 49-64: `Omega_tot0`, the sum of the four solver totals. -/
def Omega_tot0 (m : StandardCosmologyWrapper F) : F :=
  m.cosmo.Omega_Lambda + m.cosmo.Omega_m + m.cosmo.Omega0_k + m.cosmo.Omega_r

/-- Source line 66-77: `Omega_tot(z)` raises `NotImplementedError`. -/
def Omega_tot (_m : StandardCosmologyWrapper F) (_z : F) : Except Err F :=
  .error .notImplemented

/-- Source line 83-86: `Omega_k0`. -/
def Omega_k0 (m : StandardCosmologyWrapper F) : F :=
  m.cosmo.Omega0_k

/-- Source line 88-90: `Omega_k(z)` raises `NotImplementedError`. -/
def Omega_k (_m : StandardCosmologyWrapper F) (_z : F) : Except Err F :=
  .error .notImplemented

/-- Source line 95-98: `Omega_m0`. -/
def Omega_m0 (m : StandardCosmologyWrapper F) : F :=
  m.cosmo.Omega_m

/-- Source line 100-108: `Omega_m(z)` through the vectorized cache
(scalar path). -/
def Omega_m (m : StandardCosmologyWrapper F) (z : F) : F :=
  m.cosmo.Om_m z

/-- Source line 113-116: `Omega_b0`. -/
def Omega_b0 (m : StandardCosmologyWrapper F) : F :=
  m.cosmo.Omega_b

/-- Source line 118-126: `Omega_b(z)` raises `NotImplementedError`. -/
def Omega_b (_m : StandardCosmologyWrapper F) (_z : F) : Except Err F :=
  .error .notImplemented

/-- Source line 131-134: the property `Omega_nu0` raises
`NotImplementedError`. -/
def Omega_nu0 (_m : StandardCosmologyWrapper F) : Except Err F :=
  .error .notImplemented

/-- Source line 136-139: `Neff`. -/
def Neff (m : StandardCosmologyWrapper F) : F :=
  m.cosmo.Neff

/-- Source line 141-144: the property `m_nu` raises
`NotImplementedError`. -/
def m_nu (_m : StandardCosmologyWrapper F) : Except Err (List F) :=
  .error .notImplemented

/-- Source line 146-148: `Omega_nu(z)` raises `NotImplementedError`. -/
def Omega_nu (_m : StandardCosmologyWrapper F) (_z : F) : Except Err F :=
  .error .notImplemented

/-- Source line 153-156: `Omega_de0`. -/
def Omega_de0 (m : StandardCosmologyWrapper F) : F :=
  m.cosmo.Omega_Lambda

/-- Source line 158-160: `Omega_de(z)` raises `NotImplementedError`. -/
def Omega_de (_m : StandardCosmologyWrapper F) (_z : F) : Except Err F :=
  .error .notImplemented

/-- Source line 165-168: `Omega_dm0`. -/
def Omega_dm0 (m : StandardCosmologyWrapper F) : F :=
  m.cosmo.Omega0_cdm

/-- Source line 170-178: `Omega_dm(z)` raises `NotImplementedError`. -/
def Omega_dm (_m : StandardCosmologyWrapper F) (_z : F) : Except Err F :=
  .error .notImplemented

/-- Source line 183-186: `Omega_gamma0`. -/
def Omega_gamma0 (m : StandardCosmologyWrapper F) : F :=
  m.cosmo.Omega_g

/-- Source line 188-190: `Omega_gamma(z)` raises `NotImplementedError`. -/
def Omega_gamma (_m : StandardCosmologyWrapper F) (_z : F) : Except Err F :=
  .error .notImplemented

/-- Source line 207-210: `H0 = c * cosmo.Hubble(0)` in km/s/Mpc. -/
def H0 (ops : Numerics F) (m : StandardCosmologyWrapper F) : F :=
  ops.c * m.cosmo.Hubble 0

/-- Source line 195-198: `critical_density0 = 3e6 * H0**2 / (8*pi*G)`. -/
def critical_density0 (ops : Numerics F) (m : StandardCosmologyWrapper F) : F :=
  3e6 * H0 ops m ^ 2 / (8 * ops.pi * ops.G)

/-- Source line 222-224: `H(z) = c * Hubble(z)` (scalar path of the
vectorized call). -/
def H (ops : Numerics F) (m : StandardCosmologyWrapper F) (z : F) : F :=
  ops.c * m.cosmo.Hubble z

/-- Source line 222-224, array path: `np.array(c * _cosmo_fn["Hubble"](z))`
applied to a sequence of redshifts; the scalar `c` broadcasts
elementwise over the vectorized result. -/
def H_vec (ops : Numerics F) (m : StandardCosmologyWrapper F) (zs : List F) : List F :=
  ((cosmo_fn m).Hubble zs).map (fun h => ops.c * h)

/-- Source line 200-202: `critical_density(z)`, same formula as
`critical_density0` with `H(z)` in place of `H0`. -/
def critical_density (ops : Numerics F) (m : StandardCosmologyWrapper F) (z : F) : F :=
  3e6 * H ops m z ^ 2 / (8 * ops.pi * ops.G)

/-- Source line 212-215: `hubble_distance = 1 / cosmo.Hubble(0)` in Mpc.
The solver returns a Python float, so a zero rate raises
`ZeroDivisionError`; hence the checked division. -/
def hubble_distance (m : StandardCosmologyWrapper F) : Except Err F :=
  cdiv 1 (m.cosmo.Hubble 0)

/-- Source line 217-220: `hubble_time = 978.5 / H0` in Gyr (numpy array
division). -/
def hubble_time (ops : Numerics F) (m : StandardCosmologyWrapper F) : F :=
  (978.5 : F) / H0 ops m

/-- Source line 226-228: `h_over_h0(z) = Hubble(z) / Hubble(0)` on the
raw solver rates (numpy array division). -/
def h_over_h0 (m : StandardCosmologyWrapper F) (z : F) : F :=
  m.cosmo.Hubble z / m.cosmo.Hubble 0

/-- Source line 233-236: `scale_factor0 = 1.0`. -/
def scale_factor0 (_m : StandardCosmologyWrapper F) : F :=
  1

/-- Source line 238-240: `scale_factor(z) = scale_factor0 / (z + 1)`. -/
def scale_factor (m : StandardCosmologyWrapper F) (z : F) : F :=
  scale_factor0 m / (z + 1)

/-- Source line 245-248: `Tcmb0 = cosmo.T_cmb()`. -/
def Tcmb0 (m : StandardCosmologyWrapper F) : F :=
  m.cosmo.T_cmb

/-- Source line 250-252: `Tcmb(z) = Tcmb0 * (z + 1)`. -/
def Tcmb (m : StandardCosmologyWrapper F) (z : F) : F :=
  Tcmb0 m * (z + 1)

/-- Source line 257-259: `age(z)` raises `NotImplementedError`. -/
def age (_m : StandardCosmologyWrapper F) (_z : F) : Except Err F :=
  .error .notImplemented

/-- Source line 261-267: `lookback_time(z)` raises
`NotImplementedError`. -/
def lookback_time (_m : StandardCosmologyWrapper F) (_z : F) : Except Err F :=
  .error .notImplemented

/-- Source line 272-278: `comoving_distance(z)` raises
`NotImplementedError`. -/
def comoving_distance (_m : StandardCosmologyWrapper F) (_z : F) : Except Err F :=
  .error .notImplemented

/-- Source line 280-288: `comoving_transverse_distance(z)` raises
`NotImplementedError`. -/
def comoving_transverse_distance (_m : StandardCosmologyWrapper F) (_z : F) :
    Except Err F :=
  .error .notImplemented

/-- Source line 290-291: `_comoving_volume_flat(z)
= 4/3 * pi * comoving_distance(z)**3`. -/
def _comoving_volume_flat (ops : Numerics F) (m : StandardCosmologyWrapper F)
    (z : F) : Except Err F := do
  let d ← comoving_distance m z
  pure (4 / 3 * ops.pi * d ^ 3)

/-- Source line 295-302: the arithmetic of `_comoving_volume_positive`
after `dh` and the transverse distance `dM` have been obtained, with `k`
standing for `self.Omega_k0`, in source evaluation order.  Note that
both square roots of the curvature term take `|k|` (`np.abs`), while the
square root in `term2` takes `1 + k*x**2` as written. -/
def volume_body_positive (ops : Numerics F) (k dh dM : F) : Except Err F := do
  let x := dM / dh
  let term1 ← cdiv (4 * ops.pi * dh ^ 3) (2 * k)
  let s ← csqrt ops (1 + k * x ^ 2)
  let term2 := x * s
  let sk ← csqrt ops |k|
  let term3 := sk * x
  let sk2 ← csqrt ops |k|
  let inv ← cdiv 1 sk2
  pure (term1 * (term2 - inv * ops.arsinh term3))

/-- Source line 305-310: the arithmetic of `_comoving_volume_negative`,
identical to `volume_body_positive` except that the final inverse
hyperbolic sine is replaced by the (domain-checked) inverse sine. -/
def volume_body_negative (ops : Numerics F) (k dh dM : F) : Except Err F := do
  let x := dM / dh
  let term1 ← cdiv (4 * ops.pi * dh ^ 3) (2 * k)
  let s ← csqrt ops (1 + k * x ^ 2)
  let term2 := x * s
  let sk ← csqrt ops |k|
  let term3 := sk * x
  let sk2 ← csqrt ops |k|
  let inv ← cdiv 1 sk2
  let a ← carcsin ops term3
  pure (term1 * (term2 - inv * a))

/-- Source line 293-302: `_comoving_volume_positive(z)`: fetch the
Hubble distance, then the transverse comoving distance, then run the
positive-curvature arithmetic. -/
def _comoving_volume_positive (ops : Numerics F) (m : StandardCosmologyWrapper F)
    (z : F) : Except Err F := do
  let dh ← hubble_distance m
  let dM ← comoving_transverse_distance m z
  volume_body_positive ops (Omega_k0 m) dh dM

/-- Source line 304-310: `_comoving_volume_negative(z)`. -/
def _comoving_volume_negative (ops : Numerics F) (m : StandardCosmologyWrapper F)
    (z : F) : Except Err F := do
  let dh ← hubble_distance m
  let dM ← comoving_transverse_distance m z
  volume_body_negative ops (Omega_k0 m) dh dM

/-- Source line 312-325: `comoving_volume(z)` selects the branch by the
sign of `Omega_k0`, testing the flat case first. -/
def comoving_volume (ops : Numerics F) (m : StandardCosmologyWrapper F)
    (z : F) : Except Err F :=
  if Omega_k0 m = 0 then _comoving_volume_flat ops m z
  else if 0 < Omega_k0 m then _comoving_volume_positive ops m z
  else _comoving_volume_negative ops m z

/-- Source line 327-343: `differential_comoving_volume(z)
= (comoving_transverse_distance(z) / hubble_distance)**2 / h_over_h0(z)`,
with the transverse distance evaluated first (Python left-to-right
order). -/
def differential_comoving_volume (_ops : Numerics F)
    (m : StandardCosmologyWrapper F) (z : F) : Except Err F := do
  let dM ← comoving_transverse_distance m z
  let dh ← hubble_distance m
  pure ((dM / dh) ^ 2 / h_over_h0 m z)

/-- Source line 348-361: `angular_diameter_distance(z)` through the
vectorized cache (scalar path). -/
def angular_diameter_distance (m : StandardCosmologyWrapper F) (z : F) : F :=
  m.cosmo.angular_distance z

/-- Source line 366-376: `luminosity_distance(z)` through the vectorized
cache (scalar path). -/
def luminosity_distance (m : StandardCosmologyWrapper F) (z : F) : F :=
  m.cosmo.luminosity_distance z

/-! Small reduction lemmas for the `Except` embedding. -/

lemma ok_bind {α β : Type} (a : α) (f : α → Except Err β) :
    (Except.ok a : Except Err α) >>= f = f a :=
  rfl

lemma err_bind {α β : Type} (e : Err) (f : α → Except Err β) :
    (Except.error e : Except Err α) >>= f = Except.error e :=
  rfl

lemma cdiv_ok (a b : F) (h : b ≠ 0) : cdiv a b = .ok (a / b) :=
  if_neg h

lemma cdiv_zero (a : F) : cdiv a (0 : F) = .error .divByZero :=
  if_pos rfl

lemma csqrt_ok (ops : Numerics F) (x : F) (h : 0 ≤ x) :
    csqrt ops x = .ok (ops.sqrt x) :=
  if_neg (not_lt.mpr h)

lemma carcsin_ok (ops : Numerics F) (x : F) (h : |x| ≤ 1) :
    carcsin ops x = .ok (ops.arcsin x) := by
  have h2 : ¬(x < -1 ∨ 1 < x) := by
    rcases abs_le.mp h with ⟨ha, hb⟩
    push_neg
    exact ⟨ha, hb⟩
  exact if_neg h2

/-! Concrete instances over `ℚ`, used by the witness theorems.  The
`Numerics` instance interprets the abstract math functions by the
identity (only `sqrt_pos` is required of them), which keeps every
witness computation kernel-evaluable. -/

/-- Concrete numerics for witnesses: `pi = 3`, `c = 7`, `G = 5`, and the
identity for the math functions. -/
def sampleNumerics : Numerics ℚ :=
  ⟨3, 7, 5, id, id, id, fun _ h => h⟩

/-- Concrete flat-curvature solver: `Omega0_k = 0`, `Hubble(z) = 2`,
`T_cmb = 2.725`. -/
def classSolverFlat : ClassSolver ℚ :=
  ⟨fun z => z, fun _ => 2, fun z => z, fun z => z,
   7/10, 3/10, 0, 0, 1/20, 1/4, 1/100, 3, 2.725⟩

/-- Flat-curvature wrapper over `ℚ`. -/
def mFlat : StandardCosmologyWrapper ℚ :=
  ⟨classSolverFlat⟩

/-- Positive-curvature wrapper: as `mFlat` but `Omega0_k = 1`. -/
def mPos : StandardCosmologyWrapper ℚ :=
  ⟨{ classSolverFlat with Omega0_k := 1 }⟩

/-- Negative-curvature wrapper: as `mFlat` but `Omega0_k = -1`. -/
def mNeg : StandardCosmologyWrapper ℚ :=
  ⟨{ classSolverFlat with Omega0_k := -1 }⟩

/-- Positive-curvature wrapper whose solver reports a zero Hubble rate
at `z = 0`. -/
def mZeroH : StandardCosmologyWrapper ℚ :=
  ⟨{ classSolverFlat with Omega0_k := 1, Hubble := fun _ => 0 }⟩

omit [LinearOrderedField F] in
/-- C3: for every model and every input, each declared-unsupported
operation (`comoving_distance`, `comoving_transverse_distance`, `age`,
`lookback_time`, `Omega_tot(z)`, `Omega_k(z)`, `Omega_b(z)`,
`Omega_nu(z)`, `Omega_de(z)`, `Omega_dm(z)`, `Omega_gamma(z)`,
`Omega_nu0`, `m_nu`) yields the unsupported-operation outcome
`Err.notImplemented` — in particular none of them returns a numeric
value. -/
theorem unsupported_operations (m : StandardCosmologyWrapper F) (z : F) :
    comoving_distance m z = .error .notImplemented ∧
    comoving_transverse_distance m z = .error .notImplemented ∧
    age m z = .error .notImplemented ∧
    lookback_time m z = .error .notImplemented ∧
    Omega_tot m z = .error .notImplemented ∧
    Omega_k m z = .error .notImplemented ∧
    Omega_b m z = .error .notImplemented ∧
    Omega_nu m z = .error .notImplemented ∧
    Omega_de m z = .error .notImplemented ∧
    Omega_dm m z = .error .notImplemented ∧
    Omega_gamma m z = .error .notImplemented ∧
    Omega_nu0 m = .error .notImplemented ∧
    m_nu m = .error .notImplemented :=
  ⟨rfl, rfl, rfl, rfl, rfl, rfl, rfl, rfl, rfl, rfl, rfl, rfl, rfl⟩

/-- C4: for every model, the redshift-dependent Hubble function at zero
equals the `z = 0` property: `H(0) = H0`. -/
theorem H_zero_eq_H0 (ops : Numerics F) (m : StandardCosmologyWrapper F) :
    H ops m 0 = H0 ops m :=
  rfl

/-- C5: the vectorized Hubble query applied to a redshift sequence has
the same length as the input and equals the scalar query applied
elementwise in input order, so element `i` of the output is a function
of element `i` of the input alone. -/
theorem H_vectorized (ops : Numerics F) (m : StandardCosmologyWrapper F)
    (zs : List F) :
    (H_vec ops m zs).length = zs.length ∧
    ∀ i : ℕ, (H_vec ops m zs)[i]? = (zs[i]?).map (H ops m) := by
  constructor
  · simp [H_vec, cosmo_fn, vectorize]
  · intro i
    simp only [H_vec, cosmo_fn, vectorize, List.getElem?_map, Option.map_map]
    rfl

/-- C7: for every model and every redshift `z ≥ 0`,
`scale_factor(z) = 1/(1+z)`, `scale_factor(0) = 1`, and
`scale_factor0 = 1`. -/
theorem scale_factor_law (m : StandardCosmologyWrapper F) (z : F)
    (_hz : 0 ≤ z) :
    scale_factor m z = 1 / (1 + z) ∧ scale_factor m 0 = 1 ∧
    scale_factor0 m = 1 := by
  refine ⟨?_, ?_, rfl⟩
  · unfold scale_factor scale_factor0
    rw [add_comm z 1]
  · unfold scale_factor scale_factor0
    norm_num

/-- Witness for C7 at `z = 2` on the concrete flat model. -/
theorem scale_factor_law_witness :
    (0 : ℚ) ≤ 2 ∧
    (scale_factor mFlat 2 = 1 / (1 + 2) ∧ scale_factor mFlat 0 = 1 ∧
      scale_factor0 mFlat = 1) :=
  ⟨by decide, scale_factor_law mFlat 2 (by decide)⟩

/-- C8: for every model and redshift, `Tcmb(z) = Tcmb0 * (1 + z)`; in
particular a solver temperature of `2.725` gives `Tcmb(1) = 5.45`. -/
theorem Tcmb_scaling (m : StandardCosmologyWrapper F) (z : F) :
    Tcmb m z = Tcmb0 m * (1 + z) ∧
    (Tcmb0 m = 2.725 → Tcmb m 1 = 5.45) := by
  constructor
  · unfold Tcmb
    rw [add_comm z 1]
  · intro h
    unfold Tcmb
    rw [h]
    norm_num

/-- Witness for C8 on the concrete model with `T_cmb = 2.725`. -/
theorem Tcmb_scaling_witness :
    Tcmb0 mFlat = 2.725 ∧ Tcmb mFlat 1 = 5.45 :=
  ⟨rfl, (Tcmb_scaling mFlat 1).2 rfl⟩

/-- C9: for every model, `critical_density0 = 3e6 * H0^2 / (8*pi*G)`,
`critical_density(z)` is the same formula with `H(z)` substituted for
`H0`, and consequently the two agree at `z = 0`. -/
theorem critical_density_formula (ops : Numerics F)
    (m : StandardCosmologyWrapper F) (z : F) :
    critical_density0 ops m = 3e6 * H0 ops m ^ 2 / (8 * ops.pi * ops.G) ∧
    critical_density ops m z = 3e6 * H ops m z ^ 2 / (8 * ops.pi * ops.G) ∧
    critical_density ops m 0 = critical_density0 ops m :=
  ⟨rfl, rfl, rfl⟩

/-- C6: for every model whose solver Hubble rate at `z = 0` is nonzero,
`hubble_distance` evaluates to `1 / Hubble(0)` with no speed-of-light
factor, its product with `H0` is the speed-of-light constant `c`, and
hence (whenever `c ≠ 1`) the two are not reciprocals. -/
theorem hubble_distance_law (ops : Numerics F) (m : StandardCosmologyWrapper F)
    (h : m.cosmo.Hubble 0 ≠ 0) :
    hubble_distance m = Except.ok (1 / m.cosmo.Hubble 0) ∧
    1 / m.cosmo.Hubble 0 * H0 ops m = ops.c ∧
    (ops.c ≠ 1 → 1 / m.cosmo.Hubble 0 * H0 ops m ≠ 1) := by
  have h2 : 1 / m.cosmo.Hubble 0 * H0 ops m = ops.c := by
    unfold H0
    field_simp
  exact ⟨cdiv_ok 1 _ h, h2, fun hc => by rw [h2]; exact hc⟩

/-- Witness for C6 on the concrete model where the solver rate at zero
is `2` and `c = 7`. -/
theorem hubble_distance_law_witness :
    mFlat.cosmo.Hubble 0 ≠ 0 ∧
    hubble_distance mFlat = Except.ok (1 / mFlat.cosmo.Hubble 0) ∧
    1 / mFlat.cosmo.Hubble 0 * H0 sampleNumerics mFlat = sampleNumerics.c ∧
    1 / mFlat.cosmo.Hubble 0 * H0 sampleNumerics mFlat ≠ 1 :=
  ⟨by decide,
   (hubble_distance_law sampleNumerics mFlat (by decide)).1,
   (hubble_distance_law sampleNumerics mFlat (by decide)).2.1,
   (hubble_distance_law sampleNumerics mFlat (by decide)).2.2 (by decide)⟩

/-- C2: for every model with `Omega_k0 = 0` and every redshift,
`comoving_volume(z)` is the flat branch, i.e. `4/3 * pi *
comoving_distance(z)^3` mapped over the (fallible) comoving-distance
primitive. -/
theorem comoving_volume_flat_case (ops : Numerics F)
    (m : StandardCosmologyWrapper F) (z : F) (h : Omega_k0 m = 0) :
    comoving_volume ops m z = _comoving_volume_flat ops m z ∧
    comoving_volume ops m z =
      (comoving_distance m z).map (fun d => 4 / 3 * ops.pi * d ^ 3) := by
  have h1 : comoving_volume ops m z = _comoving_volume_flat ops m z := by
    unfold comoving_volume
    rw [if_pos h]
  exact ⟨h1, by rw [h1]; rfl⟩

/-- Witness for C2 on the concrete flat model at `z = 1`. -/
theorem comoving_volume_flat_case_witness :
    Omega_k0 mFlat = 0 ∧
    comoving_volume sampleNumerics mFlat 1 =
      _comoving_volume_flat sampleNumerics mFlat 1 ∧
    comoving_volume sampleNumerics mFlat 1 =
      (comoving_distance mFlat 1).map (fun d => 4 / 3 * sampleNumerics.pi * d ^ 3) :=
  ⟨rfl,
   (comoving_volume_flat_case sampleNumerics mFlat 1 rfl).1,
   (comoving_volume_flat_case sampleNumerics mFlat 1 rfl).2⟩

/-- C1: `comoving_volume` selects exactly one branch by the sign of
`Omega_k0`, testing the flat case first, so with `Omega_k0 = 0` the flat
branch runs and no division-by-zero failure can surface — while running
either curved body at curvature `0` would divide by zero at
`1/(2*Omega_k0)`.  In the curved bodies the square roots of the
curvature parameter take `|Omega_k0|`: for `Omega_k0 > 0` the body
evaluates (all checks passing) to the closed form with `arcsinh` of
`sqrt(Omega_k0) * x`, and for `Omega_k0 < 0` — provided `1 +
Omega_k0 * x^2` is nonnegative and the `arcsin` argument lies in
`[-1, 1]` — to the closed form with `arcsin` of `sqrt(|Omega_k0|) * x`;
the `sqrt(|Omega_k0|)` steps themselves can never leave the real
domain. -/
theorem comoving_volume_branch_selection (ops : Numerics F)
    (m : StandardCosmologyWrapper F) (z k dh dM : F) :
    (Omega_k0 m = 0 →
      comoving_volume ops m z = _comoving_volume_flat ops m z ∧
      comoving_volume ops m z ≠ .error .divByZero) ∧
    (0 < Omega_k0 m →
      comoving_volume ops m z = _comoving_volume_positive ops m z) ∧
    (Omega_k0 m < 0 →
      comoving_volume ops m z = _comoving_volume_negative ops m z) ∧
    volume_body_positive ops 0 dh dM = .error .divByZero ∧
    volume_body_negative ops 0 dh dM = .error .divByZero ∧
    (0 < k → volume_body_positive ops k dh dM =
      .ok (4 * ops.pi * dh ^ 3 / (2 * k) *
        (dM / dh * ops.sqrt (1 + k * (dM / dh) ^ 2) -
          1 / ops.sqrt k * ops.arsinh (ops.sqrt k * (dM / dh))))) ∧
    (k < 0 → 0 ≤ 1 + k * (dM / dh) ^ 2 →
      |ops.sqrt |k| * (dM / dh)| ≤ 1 →
      volume_body_negative ops k dh dM =
      .ok (4 * ops.pi * dh ^ 3 / (2 * k) *
        (dM / dh * ops.sqrt (1 + k * (dM / dh) ^ 2) -
          1 / ops.sqrt |k| * ops.arcsin (ops.sqrt |k| * (dM / dh))))) := by
  refine ⟨?_, ?_, ?_, ?_, ?_, ?_, ?_⟩
  · intro h
    have hb : comoving_volume ops m z = _comoving_volume_flat ops m z := by
      unfold comoving_volume
      rw [if_pos h]
    refine ⟨hb, ?_⟩
    rw [hb]
    intro hc
    have h2 : (Except.error Err.notImplemented : Except Err F) =
        Except.error Err.divByZero := hc
    exact Err.noConfusion (Except.error.inj h2)
  · intro h
    unfold comoving_volume
    rw [if_neg h.ne', if_pos h]
  · intro h
    unfold comoving_volume
    rw [if_neg h.ne, if_neg (not_lt.mpr h.le)]
  · simp only [volume_body_positive, mul_zero, cdiv_zero, err_bind]
  · simp only [volume_body_negative, mul_zero, cdiv_zero, err_bind]
  · intro hk
    have h2k : (2 : F) * k ≠ 0 := (mul_pos two_pos hk).ne'
    have hx : (0 : F) ≤ 1 + k * (dM / dh) ^ 2 := by
      have := mul_nonneg hk.le (sq_nonneg (dM / dh))
      linarith
    have habs : |k| = k := abs_of_pos hk
    have hs : ops.sqrt k ≠ 0 := (ops.sqrt_pos k hk).ne'
    simp only [volume_body_positive, habs,
      cdiv_ok (4 * ops.pi * dh ^ 3) (2 * k) h2k, ok_bind,
      csqrt_ok ops (1 + k * (dM / dh) ^ 2) hx,
      csqrt_ok ops k hk.le, cdiv_ok 1 (ops.sqrt k) hs]
    rfl
  · intro hk h1 h3
    have h2k : (2 : F) * k ≠ 0 := (mul_neg_of_pos_of_neg two_pos hk).ne
    have hk0 : (0 : F) < |k| := abs_pos.mpr hk.ne
    have hs : ops.sqrt |k| ≠ 0 := (ops.sqrt_pos _ hk0).ne'
    simp only [volume_body_negative,
      cdiv_ok (4 * ops.pi * dh ^ 3) (2 * k) h2k, ok_bind,
      csqrt_ok ops (1 + k * (dM / dh) ^ 2) h1,
      csqrt_ok ops |k| (abs_nonneg k),
      cdiv_ok 1 (ops.sqrt |k|) hs,
      carcsin_ok ops (ops.sqrt |k| * (dM / dh)) h3]
    rfl

/-- Witness for C1: concrete flat, positive and negative models, and the
curved bodies run at curvature `0`, `1` and `-1` with `dh = 1`,
`dM = 0`. -/
theorem comoving_volume_branch_selection_witness :
    Omega_k0 mFlat = 0 ∧
    (comoving_volume sampleNumerics mFlat 1 =
        _comoving_volume_flat sampleNumerics mFlat 1 ∧
      comoving_volume sampleNumerics mFlat 1 ≠ .error .divByZero) ∧
    0 < Omega_k0 mPos ∧
    comoving_volume sampleNumerics mPos 1 =
      _comoving_volume_positive sampleNumerics mPos 1 ∧
    Omega_k0 mNeg < 0 ∧
    comoving_volume sampleNumerics mNeg 1 =
      _comoving_volume_negative sampleNumerics mNeg 1 ∧
    volume_body_positive sampleNumerics 0 1 0 = .error .divByZero ∧
    volume_body_negative sampleNumerics 0 1 0 = .error .divByZero ∧
    (0 : ℚ) < 1 ∧
    volume_body_positive sampleNumerics 1 1 0 =
      .ok (4 * sampleNumerics.pi * 1 ^ 3 / (2 * 1) *
        (0 / 1 * sampleNumerics.sqrt (1 + 1 * ((0 : ℚ) / 1) ^ 2) -
          1 / sampleNumerics.sqrt 1 *
            sampleNumerics.arsinh (sampleNumerics.sqrt 1 * (0 / 1)))) ∧
    (-1 : ℚ) < 0 ∧
    volume_body_negative sampleNumerics (-1) 1 0 =
      .ok (4 * sampleNumerics.pi * 1 ^ 3 / (2 * -1) *
        (0 / 1 * sampleNumerics.sqrt (1 + -1 * ((0 : ℚ) / 1) ^ 2) -
          1 / sampleNumerics.sqrt |(-1 : ℚ)| *
            sampleNumerics.arcsin (sampleNumerics.sqrt |(-1 : ℚ)| * (0 / 1)))) :=
  ⟨rfl,
   (comoving_volume_branch_selection sampleNumerics mFlat 1 0 0 0).1 rfl,
   by decide,
   (comoving_volume_branch_selection sampleNumerics mPos 1 0 0 0).2.1 (by decide),
   by decide,
   (comoving_volume_branch_selection sampleNumerics mNeg 1 0 0 0).2.2.1 (by decide),
   (comoving_volume_branch_selection sampleNumerics mFlat 1 0 1 0).2.2.2.1,
   (comoving_volume_branch_selection sampleNumerics mFlat 1 0 1 0).2.2.2.2.1,
   by decide,
   (comoving_volume_branch_selection sampleNumerics mFlat 1 1 1 0).2.2.2.2.2.1
     (by decide),
   by decide,
   (comoving_volume_branch_selection sampleNumerics mFlat 1 (-1) 1 0).2.2.2.2.2.2
     (by decide) (by simp) (by simp [sampleNumerics])⟩

/-- C10 counterexample: a model whose solver reports a zero Hubble rate
at `z = 0` with positive curvature makes `comoving_volume` fail with
the division-by-zero outcome (Python: `ZeroDivisionError` inside
`hubble_distance`), not with `NotImplementedError` — so the claim that
every model and input yields `NotImplementedError` is false as
stated. -/
theorem comoving_volume_zero_rate_counterexample :
    comoving_volume sampleNumerics mZeroH 1 ≠ Except.error Err.notImplemented ∧
    comoving_volume sampleNumerics mZeroH 1 = Except.error Err.divByZero := by
  have he : comoving_volume sampleNumerics mZeroH 1 =
      Except.error Err.divByZero := rfl
  exact ⟨by rw [he]; simp, he⟩

/-- C10 (amended): `comoving_volume` and `differential_comoving_volume`
never return a numeric value; `differential_comoving_volume` always
fails with `NotImplementedError`, and so does `comoving_volume` in the
flat branch unconditionally and in the curved branches whenever the
solver Hubble rate at `z = 0` is nonzero (when that rate is zero the
curved branches fail with the division-by-zero outcome of
`hubble_distance` instead). -/
theorem comoving_volume_never_numeric (ops : Numerics F)
    (m : StandardCosmologyWrapper F) (z : F) :
    (∀ v : F, comoving_volume ops m z ≠ .ok v) ∧
    (∀ v : F, differential_comoving_volume ops m z ≠ .ok v) ∧
    differential_comoving_volume ops m z = .error .notImplemented ∧
    (Omega_k0 m = 0 → comoving_volume ops m z = .error .notImplemented) ∧
    (m.cosmo.Hubble 0 ≠ 0 →
      comoving_volume ops m z = .error .notImplemented) := by
  have key : comoving_volume ops m z = .error .notImplemented ∨
      comoving_volume ops m z = .error .divByZero := by
    unfold comoving_volume
    split_ifs with h1 h2
    · exact Or.inl rfl
    · unfold _comoving_volume_positive hubble_distance
      by_cases h0 : m.cosmo.Hubble 0 = 0
      · rw [h0, cdiv_zero]
        exact Or.inr rfl
      · rw [cdiv_ok 1 _ h0]
        exact Or.inl rfl
    · unfold _comoving_volume_negative hubble_distance
      by_cases h0 : m.cosmo.Hubble 0 = 0
      · rw [h0, cdiv_zero]
        exact Or.inr rfl
      · rw [cdiv_ok 1 _ h0]
        exact Or.inl rfl
  have hHne : m.cosmo.Hubble 0 ≠ 0 →
      comoving_volume ops m z = .error .notImplemented := by
    intro h0
    unfold comoving_volume
    split_ifs with h1 h2
    · rfl
    · unfold _comoving_volume_positive hubble_distance
      rw [cdiv_ok 1 _ h0]
      rfl
    · unfold _comoving_volume_negative hubble_distance
      rw [cdiv_ok 1 _ h0]
      rfl
  refine ⟨?_, ?_, rfl, ?_, hHne⟩
  · intro v hv
    rcases key with hk | hk <;> rw [hk] at hv <;> exact Except.noConfusion hv
  · intro v hv
    exact Except.noConfusion hv
  · intro h1
    unfold comoving_volume
    rw [if_pos h1]
    rfl

/-- Witness for the amended C10 on concrete flat and positive-curvature
models. -/
theorem comoving_volume_never_numeric_witness :
    Omega_k0 mFlat = 0 ∧
    comoving_volume sampleNumerics mFlat 1 = .error .notImplemented ∧
    mPos.cosmo.Hubble 0 ≠ 0 ∧
    comoving_volume sampleNumerics mPos 1 = .error .notImplemented ∧
    differential_comoving_volume sampleNumerics mPos 1 = .error .notImplemented :=
  ⟨rfl,
   (comoving_volume_never_numeric sampleNumerics mFlat 1).2.2.2.1 rfl,
   by decide,
   (comoving_volume_never_numeric sampleNumerics mPos 1).2.2.2.2 (by decide),
   (comoving_volume_never_numeric sampleNumerics mPos 1).2.2.1⟩

end ClassyCompat
